import Mathlib

/-!
Shallow embedding of `nfs3_tests_v2.py` (NFS3 protocol test harness).

Python exceptions are modelled with `Except Err`; every fallible OS/file
primitive a test performs is an input supplied by a small environment
structure, so each test body is a pure Lean function translated from the
Python control flow (try/except, loops, early returns).  Result messages
that the source builds with f-strings are modelled by the inductive `Msg`
so that no float formatting has to be reproduced; Python floats (phase
timings) are modelled as rationals.
-/

namespace NFS3V2

/-- A Python exception.  `os errno msg` covers the `OSError`/`IOError`
family (a `FileNotFoundError` raised by `os.remove` is `os 2 msg`);
`generic msg` covers every other exception class, carrying `str(e)`. -/
inductive Err where
  | os (errno : Int) (msg : String)
  | generic (msg : String)
deriving DecidableEq, Repr

/-- `str(e)` of an exception. -/
def Err.str : Err → String
  | .os _ m => m
  | .generic m => m

deriving instance DecidableEq for Except

/-- Outcome of a fallible Python operation. -/
abbrev Op (α : Type) := Except Err α

/-- The `message` argument of `log_result`, one constructor per message
shape the source produces (fixed literals, `str(e)`, and the formatted
performance strings, keeping their numeric payloads). -/
inductive Msg where
  | text (s : String)
  | exc (e : Err)
  | blocked (errno : Int)
  | perfSmall (n : Nat) (createRate readRate deleteRate : ℚ)
  | perfConc (succeeded total : Nat) (duration : ℚ)
  | perfLarge (mb : Nat) (writeRate readRate : ℚ)
  | roItems (n : Nat)
deriving DecidableEq, Repr

/-- One record appended to `self.results` by `NFS3Test.log_result`
(the wall-clock `timestamp` field carries no test-relevant information
and is not modelled). -/
structure TestResult where
  test : String
  passed : Bool
  message : Msg
  transport : String
deriving DecidableEq, Repr

/-- Observable events of a run, in program order. -/
inductive Event where
  | recorded (r : TestResult)
  | mountCmd (options : String)
  | teardownStart
  | rmWorkDir
  | umountCmd (mountPoint : String)
  | summaryPrinted (total passed : Nat)
  | reportWritten (total passed : Nat) (rate : Option ℚ)
deriving DecidableEq, Repr

/-- The results recorded along a trace, in order. -/
def resultsOf (tr : List Event) : List TestResult :=
  tr.filterMap fun ev =>
    match ev with
    | .recorded r => some r
    | _ => none

def Event.isSummary : Event → Bool
  | .summaryPrinted _ _ => true
  | _ => false

/-- Recognise a `recorded` event. -/
def Event.isRecorded : Event → Bool
  | .recorded _ => true
  | _ => false

/-- Recognise a `mountCmd` event. -/
def Event.isMountCmd : Event → Bool
  | .mountCmd _ => true
  | _ => false

def Event.isReport : Event → Bool
  | .reportWritten _ _ _ => true
  | _ => false

/-- Python `needle in hay` on lists of characters. -/
def listIn (n : List Char) : List Char → Bool
  | [] => decide (n = [])
  | c :: t => n.isPrefixOf (c :: t) || listIn n t

/-- Python substring test `needle in hay`. -/
def pyIn (needle hay : String) : Bool :=
  listIn needle.data hay.data

/-- Split a character list at every separator character (keeping empty
pieces), the semantics of Python `str.split(sep)` for a one-character
separator. -/
def splitOnPred (p : Char → Bool) : List Char → List (List Char)
  | [] => [[]]
  | a :: t =>
      let r := splitOnPred p t
      if p a then [] :: r
      else
        match r with
        | [] => [[a]]
        | h :: t2 => (a :: h) :: t2

/-- Python `mounts.split('\n')`. -/
def pySplitLines (s : String) : List String :=
  (splitOnPred (fun c => c = '\n') s.data).map fun l => String.mk l

/-- Python `str.split()` with no argument: split on whitespace runs,
dropping empty fields. -/
def pyFields (s : String) : List String :=
  ((splitOnPred (fun c => c = ' ' || c = '\t') s.data).map
    fun l => String.mk l).filter fun t => t ≠ ""

/-- Python `int / int` true division (raises `ZeroDivisionError`). -/
def pyDivInt (num den : Int) : Op ℚ :=
  if den = 0 then .error (.generic "division by zero")
  else .ok ((num : ℚ) / (den : ℚ))

/-- Python `float / float` division (raises `ZeroDivisionError`). -/
def pyDivFloat (num den : ℚ) : Op ℚ :=
  if den = 0 then .error (.generic "float division by zero")
  else .ok (num / den)

/-- `','.join` as the source uses it. -/
def commaJoin : List String → String
  | [] => ""
  | [s] => s
  | s :: rest => s ++ "," ++ commaJoin rest

/-- The `NFSMountOptions` dataclass; `actimeo: int = None` becomes an
`Option Int`. -/
structure NFSMountOptions where
  transport : String := "tcp"
  rsize : Int := 1048576
  wsize : Int := 1048576
  timeo : Int := 600
  retrans : Int := 2
  soft : Bool := false
  intr : Bool := true
  noac : Bool := false
  actimeo : Option Int := none
  acregmin : Int := 3
  acregmax : Int := 60
  acdirmin : Int := 30
  acdirmax : Int := 60
  nosharecache : Bool := false
  nordirplus : Bool := false
deriving DecidableEq, Repr

/-- Python truthiness of the `actimeo` field (`None` and `0` are falsy). -/
def optTruthy : Option Int → Bool
  | none => false
  | some n => n ≠ 0

/-- One token appended to the `opts` list in `to_mount_string`;
`mode` is the `rw`/`ro` token that `NFS3Test.mount` appends. -/
inductive MountOpt where
  | vers3
  | proto (t : String)
  | rsize (n : Int)
  | wsize (n : Int)
  | timeo (n : Int)
  | retrans (n : Int)
  | soft
  | hard
  | intr
  | noac
  | actimeo (n : Int)
  | acregmin (n : Int)
  | acregmax (n : Int)
  | acdirmin (n : Int)
  | acdirmax (n : Int)
  | nosharecache
  | nordirplus
  | mode (m : String)
deriving DecidableEq, Repr

/-- The f-string each token renders to in `to_mount_string`. -/
def MountOpt.render : MountOpt → String
  | .vers3 => "vers=3"
  | .proto t => "proto=" ++ t
  | .rsize n => "rsize=" ++ toString n
  | .wsize n => "wsize=" ++ toString n
  | .timeo n => "timeo=" ++ toString n
  | .retrans n => "retrans=" ++ toString n
  | .soft => "soft"
  | .hard => "hard"
  | .intr => "intr"
  | .noac => "noac"
  | .actimeo n => "actimeo=" ++ toString n
  | .acregmin n => "acregmin=" ++ toString n
  | .acregmax n => "acregmax=" ++ toString n
  | .acdirmin n => "acdirmin=" ++ toString n
  | .acdirmax n => "acdirmax=" ++ toString n
  | .nosharecache => "nosharecache"
  | .nordirplus => "nordirplus"
  | .mode m => m

/-- The `opts` list that `NFSMountOptions.to_mount_string` builds,
branch for branch (`if self.soft ... else 'hard'`, `if self.intr`,
`if self.noac / elif self.actimeo / else` the four bounds, then the two
optional flags). -/
def to_mount_opts (o : NFSMountOptions) : List MountOpt :=
  [MountOpt.vers3, MountOpt.proto o.transport, MountOpt.rsize o.rsize,
   MountOpt.wsize o.wsize, MountOpt.timeo o.timeo, MountOpt.retrans o.retrans]
  ++ (if o.soft then [MountOpt.soft] else [MountOpt.hard])
  ++ (if o.intr then [MountOpt.intr] else [])
  ++ (if o.noac then [MountOpt.noac]
      else if optTruthy o.actimeo then [MountOpt.actimeo (o.actimeo.getD 0)]
      else [MountOpt.acregmin o.acregmin, MountOpt.acregmax o.acregmax,
            MountOpt.acdirmin o.acdirmin, MountOpt.acdirmax o.acdirmax])
  ++ (if o.nosharecache then [MountOpt.nosharecache] else [])
  ++ (if o.nordirplus then [MountOpt.nordirplus] else [])

/-- `NFSMountOptions.to_mount_string`: `','.join(opts)`. -/
def to_mount_string (o : NFSMountOptions) : String :=
  commaJoin ((to_mount_opts o).map MountOpt.render)

/-- The `-o` argument `NFS3Test.mount` passes to the mount command:
`options = self.mount_options.to_mount_string()` then
`options += f',{self.mount_type}'`. -/
def mount_options_arg (o : NFSMountOptions) (mountType : String) : String :=
  to_mount_string o ++ "," ++ mountType

/-- The per-session state a test body reads from `self`:
`self.mount_point`, `self.test_dir`, `self.mount_options`,
`self.mount_type`. -/
structure Ctx where
  mountPoint : String
  testDir : String
  opts : NFSMountOptions
  mountType : String
deriving DecidableEq, Repr

/-- `NFS3Test.log_result`: appends one record (and logs it). -/
def logResult (ctx : Ctx) (testName : String) (passed : Bool) (m : Msg) : Event :=
  .recorded ⟨testName, passed, m, ctx.opts.transport⟩

/-- Run a list of fallible statements in order, stopping at the first
raised exception (a Python `for` loop of fallible bodies). -/
def seqOps : List (Op Unit) → Op Unit
  | [] => .ok ()
  | o :: rest =>
    match o with
    | .error e => .error e
    | .ok () => seqOps rest

/-- Environment of `test_mount_options_verification` /
`test_transport_protocol`: the outcome of reading `/proc/mounts`. -/
structure ProcMountsEnv where
  procMounts : Op String
deriving DecidableEq, Repr

/-- Environment for the create/read/delete shaped tests
(`test_readwrite_mount_enforcement`, `test_basic_file_operations`):
outcome of the write block, the read block, and `os.remove`. -/
structure FileOpsEnv where
  writeOp : Op Unit
  readOp : Op String
  removeOp : Op Unit
deriving DecidableEq, Repr

/-- Environment of `test_idempotent_operations`. -/
structure IdemEnv where
  writeIter : Nat → Op Unit
  readOp : Op String
  removeFirst : Op Unit
  removeSecond : Op Unit

/-- Environment of `test_close_to_open_consistency`. -/
structure C2oEnv where
  writeOp : Op Unit
  readOp : Op String
deriving DecidableEq, Repr

/-- What the spawned child of `test_nlm_basic_locking` experiences:
its `open(test_file, 'r+')` and its non-blocking
`flock(LOCK_EX | LOCK_NB)`. -/
structure ChildEnv where
  openChild : Op Unit
  flockChild : Op Unit
deriving DecidableEq, Repr

/-- Environment of `test_nlm_basic_locking` (main-process steps plus the
child's). -/
structure NlmEnv where
  createFile : Op Unit
  openMain : Op Unit
  flockMain : Op Unit
  child : ChildEnv
  spawn : Op Unit
  unlock : Op Unit
deriving DecidableEq, Repr

/-- Environment of `test_small_file_performance`: the
`os.makedirs(test_subdir)` call, the per-index create/read/delete
outcomes, and the measured phase durations (`time.time()` deltas). -/
structure SmallEnv where
  makedirs : Op Unit
  createFile : Nat → Op Unit
  readFile : Nat → Op Unit
  removeFile : Nat → Op Unit
  createTime : ℚ
  readTime : ℚ
  deleteTime : ℚ

/-- What one `writer_task` of `test_concurrent_writers` experiences. -/
structure WriterEnv where
  writeOp : Op Unit
  readOp : Op String
deriving DecidableEq, Repr

/-- Environment of `test_concurrent_writers`: the thread pool itself,
one `WriterEnv` per writer id, and the measured duration. -/
structure ConcEnv where
  pool : Op Unit
  writers : Nat → WriterEnv
  duration : ℚ

/-- Environment of `test_large_file_sequential_io`: per-chunk write
outcomes, the read-back loop, the cleanup `os.remove`, and phase
durations. -/
structure LargeEnv where
  writeChunk : Nat → Op Unit
  readPhase : Op Unit
  removeOp : Op Unit
  writeTime : ℚ
  readTime : ℚ

/-- Environment of `test_readonly_mount_enforcement`: the outcome of
`open(test_file, 'w')` + `f.write(...)` at the mount root. -/
structure RoEnfEnv where
  writeOp : Op Unit
deriving DecidableEq, Repr

/-- Environment of `test_readonly_mount_read_operations`:
`os.listdir` (item count) and `os.stat`. -/
structure RoReadEnv where
  listdir : Op Nat
  statDir : Op Unit
deriving DecidableEq, Repr

/-- Environment of `NFS3Test.mount`: `tempfile.mkdtemp`, the mount
command's return code (an exception models e.g. `TimeoutExpired`), and
the output of the `mount` table listing. -/
structure MountEnv where
  mkdtemp : Op String
  runMount : Op Int
  mountTable : Op String
deriving DecidableEq, Repr

/-- Environment of `NFS3Test.teardown`: `os.path.exists(self.test_dir)`
and the `rm -rf` subprocess call. -/
structure TdEnv where
  dirExists : Bool
  rmrf : Op Unit
deriving DecidableEq, Repr

/-- Environment of one whole `NFS3Test` session. -/
structure Env where
  mount : MountEnv
  mkTestDir : Op Unit
  testId : String
  mov : ProcMountsEnv
  tp : ProcMountsEnv
  rwEnf : FileOpsEnv
  basic : FileOpsEnv
  idem : IdemEnv
  c2o : C2oEnv
  nlm : NlmEnv
  small : SmallEnv
  conc : ConcEnv
  large : LargeEnv
  roEnf : RoEnfEnv
  roRead : RoReadEnv
  td : TdEnv

/-- First line of `/proc/mounts` containing the mount point
(the `for line in mounts.split('\n') ... break` loop). -/
def firstMountLine (mountPoint mounts : String) : Option String :=
  (pySplitLines mounts).find? fun l => pyIn mountPoint l

/-- `test_mount_options_verification`.  After finding the mount line and
checking it has at least 4 whitespace fields, the Phase-3 option checks
(`'vers=3' in options`, `proto=...`) only emit log lines; the recorded
result is a pass whenever the field count check succeeds. -/
def test_mount_options_verification (ctx : Ctx) (env : ProcMountsEnv) :
    List Event × Op Unit :=
  match env.procMounts with
  | .error e =>
      ([logResult ctx "mount_options_verification" false (.exc e)], .ok ())
  | .ok mounts =>
      match firstMountLine ctx.mountPoint mounts with
      | none =>
          ([logResult ctx "mount_options_verification" false
              (.text "Mount not found in /proc/mounts")], .ok ())
      | some line =>
          if 4 ≤ (pyFields line).length then
            ([logResult ctx "mount_options_verification" true (.text "")], .ok ())
          else
            ([logResult ctx "mount_options_verification" false
                (.text "Could not parse mount options")], .ok ())

/-- Does one `/proc/mounts` line make `test_transport_protocol` return a
pass?  It must contain the mount point and, for the requested transport,
the matching `proto=...`/`,tcp`/`,udp` marker. -/
def tpLineMatch (ctx : Ctx) (line : String) : Bool :=
  pyIn ctx.mountPoint line &&
  ((ctx.opts.transport = "tcp" && (pyIn "proto=tcp" line || pyIn ",tcp" line)) ||
   (ctx.opts.transport = "udp" && (pyIn "proto=udp" line || pyIn ",udp" line)))

/-- `test_transport_protocol`: the loop keeps scanning lines (a line
containing the mount point but not the transport marker does not
terminate it); if no line matches, failure is recorded after the loop. -/
def test_transport_protocol (ctx : Ctx) (env : ProcMountsEnv) :
    List Event × Op Unit :=
  match env.procMounts with
  | .error e =>
      ([logResult ctx "transport_protocol" false (.exc e)], .ok ())
  | .ok mounts =>
      if (pySplitLines mounts).any (fun l => tpLineMatch ctx l) then
        ([logResult ctx "transport_protocol" true
            (.text (if ctx.opts.transport = "tcp" then "Using TCP as expected"
                    else "Using UDP as expected"))], .ok ())
      else
        ([logResult ctx "transport_protocol" false
            (.text "Could not verify transport protocol")], .ok ())

/-- Shared body of the two write/read-back/delete tests: write
`testData`, read it back, `assert content == test_data` (a failed
`assert` raises `AssertionError`, whose `str` is empty), delete, record
a pass; any exception is recorded as a failure with `str(e)`. -/
def fileOpsBody (ctx : Ctx) (testName testData : String) (env : FileOpsEnv) :
    List Event × Op Unit :=
  match env.writeOp with
  | .error e => ([logResult ctx testName false (.exc e)], .ok ())
  | .ok () =>
      match env.readOp with
      | .error e => ([logResult ctx testName false (.exc e)], .ok ())
      | .ok content =>
          if content = testData then
            match env.removeOp with
            | .error e => ([logResult ctx testName false (.exc e)], .ok ())
            | .ok () => ([logResult ctx testName true (.text "")], .ok ())
          else
            ([logResult ctx testName false (.exc (.generic ""))], .ok ())

/-- `test_readwrite_mount_enforcement` (`test_data = "RW mount test"`). -/
def test_readwrite_mount_enforcement (ctx : Ctx) (env : FileOpsEnv) :
    List Event × Op Unit :=
  fileOpsBody ctx "readwrite_mount_enforcement" "RW mount test" env

/-- `test_basic_file_operations` (`test_data = "Hello NFS3"`). -/
def test_basic_file_operations (ctx : Ctx) (env : FileOpsEnv) :
    List Event × Op Unit :=
  fileOpsBody ctx "basic_file_operations" "Hello NFS3" env

/-- `test_idempotent_operations`: three overwrites, read back,
`assert "Iteration 2" in content`, first delete, then a second delete
whose `FileNotFoundError` is swallowed by the inner
`except FileNotFoundError` (any other exception class reaches the outer
handler); a silently succeeding second delete only emits an error log
line and the test still records a pass. -/
def test_idempotent_operations (ctx : Ctx) (env : IdemEnv) :
    List Event × Op Unit :=
  match seqOps ((List.range 3).map env.writeIter) with
  | .error e => ([logResult ctx "idempotent_operations" false (.exc e)], .ok ())
  | .ok () =>
      match env.readOp with
      | .error e => ([logResult ctx "idempotent_operations" false (.exc e)], .ok ())
      | .ok content =>
          if pyIn "Iteration 2" content then
            match env.removeFirst with
            | .error e =>
                ([logResult ctx "idempotent_operations" false (.exc e)], .ok ())
            | .ok () =>
                match env.removeSecond with
                | .ok () =>
                    ([logResult ctx "idempotent_operations" true (.text "")], .ok ())
                | .error (.os 2 _) =>
                    ([logResult ctx "idempotent_operations" true (.text "")], .ok ())
                | .error e =>
                    ([logResult ctx "idempotent_operations" false (.exc e)], .ok ())
          else
            ([logResult ctx "idempotent_operations" false (.exc (.generic ""))], .ok ())

/-- `test_close_to_open_consistency` (`test_data = "Process 1 data"`;
the fixed `time.sleep(0.5)` has no observable outcome). -/
def test_close_to_open_consistency (ctx : Ctx) (env : C2oEnv) :
    List Event × Op Unit :=
  match env.writeOp with
  | .error e => ([logResult ctx "close_to_open_consistency" false (.exc e)], .ok ())
  | .ok () =>
      match env.readOp with
      | .error e =>
          ([logResult ctx "close_to_open_consistency" false (.exc e)], .ok ())
      | .ok content =>
          if content = "Process 1 data" then
            ([logResult ctx "close_to_open_consistency" true (.text "")], .ok ())
          else
            ([logResult ctx "close_to_open_consistency" false
                (.exc (.generic ""))], .ok ())

/-- The child's `try_lock_exclusive`: returns `True` iff its open or its
non-blocking `flock` raised `IOError` (i.e. it observed would-block),
`False` if the lock attempt succeeded. -/
def try_lock_exclusive (child : ChildEnv) : Bool :=
  match child.openChild with
  | .error _ => true
  | .ok () =>
      match child.flockChild with
      | .error _ => true
      | .ok () => false

/-- `test_nlm_basic_locking`.  The child is spawned with
`multiprocessing.Process(target=try_lock_exclusive)` and only joined:
its boolean return value is discarded, so the recorded outcome depends
solely on the main process's own steps. -/
def test_nlm_basic_locking (ctx : Ctx) (env : NlmEnv) :
    List Event × Op Unit :=
  match env.createFile with
  | .error e => ([logResult ctx "nlm_basic_locking" false (.exc e)], .ok ())
  | .ok () =>
      match env.openMain with
      | .error e => ([logResult ctx "nlm_basic_locking" false (.exc e)], .ok ())
      | .ok () =>
          match env.flockMain with
          | .error e => ([logResult ctx "nlm_basic_locking" false (.exc e)], .ok ())
          | .ok () =>
              let _childResult := try_lock_exclusive env.child
              match env.spawn with
              | .error e =>
                  ([logResult ctx "nlm_basic_locking" false (.exc e)], .ok ())
              | .ok () =>
                  match env.unlock with
                  | .error e =>
                      ([logResult ctx "nlm_basic_locking" false (.exc e)], .ok ())
                  | .ok () =>
                      ([logResult ctx "nlm_basic_locking" true (.text "")], .ok ())

/-- `test_small_file_performance(num_files)`.  The
`os.makedirs(test_subdir, exist_ok=True)` call sits before the `try`
block: if it raises, no result is recorded and the exception escapes
the test.  Inside the `try`, the three timed phases run (a zero phase
duration raises `ZeroDivisionError` at the rate computation, caught by
the handler). -/
def test_small_file_performance (ctx : Ctx) (numFiles : Nat) (env : SmallEnv) :
    List Event × Op Unit :=
  match env.makedirs with
  | .error e => ([], .error e)
  | .ok () =>
      match seqOps ((List.range numFiles).map env.createFile) with
      | .error e => ([logResult ctx "small_file_performance" false (.exc e)], .ok ())
      | .ok () =>
          match pyDivFloat (numFiles : ℚ) env.createTime with
          | .error e =>
              ([logResult ctx "small_file_performance" false (.exc e)], .ok ())
          | .ok createRate =>
              match seqOps ((List.range numFiles).map env.readFile) with
              | .error e =>
                  ([logResult ctx "small_file_performance" false (.exc e)], .ok ())
              | .ok () =>
                  match pyDivFloat (numFiles : ℚ) env.readTime with
                  | .error e =>
                      ([logResult ctx "small_file_performance" false (.exc e)], .ok ())
                  | .ok readRate =>
                      match seqOps ((List.range numFiles).map env.removeFile) with
                      | .error e =>
                          ([logResult ctx "small_file_performance" false (.exc e)],
                           .ok ())
                      | .ok () =>
                          match pyDivFloat (numFiles : ℚ) env.deleteTime with
                          | .error e =>
                              ([logResult ctx "small_file_performance" false
                                  (.exc e)], .ok ())
                          | .ok deleteRate =>
                              ([logResult ctx "small_file_performance" true
                                  (.perfSmall numFiles createRate readRate
                                    deleteRate)], .ok ())

/-- One `writer_task(writer_id)`: write + flush + fsync, read back,
compare lengths with `data = f"Writer {writer_id}\n" * 1000`; every
exception inside the task is caught and returned as `False`. -/
def writer_task (writerId : Nat) (we : WriterEnv) : Bool :=
  match we.writeOp with
  | .error _ => false
  | .ok () =>
      match we.readOp with
      | .error _ => false
      | .ok readData =>
          readData.length = 1000 * ("Writer " ++ toString writerId ++ "\n").length

/-- `test_concurrent_writers(num_writers)`: maps `writer_task` over the
pool, counts successes, and records a pass iff every writer succeeded. -/
def test_concurrent_writers (ctx : Ctx) (numWriters : Nat) (env : ConcEnv) :
    List Event × Op Unit :=
  match env.pool with
  | .error e => ([logResult ctx "concurrent_writers" false (.exc e)], .ok ())
  | .ok () =>
      let results := (List.range numWriters).map fun i => writer_task i (env.writers i)
      let successCount := (results.filter fun b => b).length
      ([logResult ctx "concurrent_writers" (successCount = numWriters)
          (.perfConc successCount numWriters env.duration)], .ok ())

/-- `test_large_file_sequential_io(size_mb)`: chunked sequential write,
read-back loop (its byte count is not checked), cleanup, and the two
rate computations. -/
def test_large_file_sequential_io (ctx : Ctx) (sizeMb : Nat) (env : LargeEnv) :
    List Event × Op Unit :=
  match seqOps ((List.range sizeMb).map env.writeChunk) with
  | .error e => ([logResult ctx "large_sequential_io" false (.exc e)], .ok ())
  | .ok () =>
      match pyDivFloat (sizeMb : ℚ) env.writeTime with
      | .error e => ([logResult ctx "large_sequential_io" false (.exc e)], .ok ())
      | .ok writeRate =>
          match env.readPhase with
          | .error e => ([logResult ctx "large_sequential_io" false (.exc e)], .ok ())
          | .ok () =>
              match pyDivFloat (sizeMb : ℚ) env.readTime with
              | .error e =>
                  ([logResult ctx "large_sequential_io" false (.exc e)], .ok ())
              | .ok readRate =>
                  match env.removeOp with
                  | .error e =>
                      ([logResult ctx "large_sequential_io" false (.exc e)], .ok ())
                  | .ok () =>
                      ([logResult ctx "large_sequential_io" true
                          (.perfLarge sizeMb writeRate readRate)], .ok ())

/-- `test_readonly_mount_enforcement`: a successful write is a recorded
failure; an `OSError`/`IOError` with `errno in (30, 13)` (EROFS or
EACCES) is the only pass; any other errno, or any other exception
class, is a recorded failure. -/
def test_readonly_mount_enforcement (ctx : Ctx) (env : RoEnfEnv) :
    List Event × Op Unit :=
  match env.writeOp with
  | .ok () =>
      ([logResult ctx "readonly_mount_enforcement" false
          (.text "Write succeeded on ro mount!")], .ok ())
  | .error (.os n m) =>
      if n = 30 ∨ n = 13 then
        ([logResult ctx "readonly_mount_enforcement" true (.blocked n)], .ok ())
      else
        ([logResult ctx "readonly_mount_enforcement" false
            (.exc (.os n m))], .ok ())
  | .error (.generic m) =>
      ([logResult ctx "readonly_mount_enforcement" false
          (.exc (.generic m))], .ok ())

/-- `test_readonly_mount_read_operations`: `os.listdir` then `os.stat`
on the mount point. -/
def test_readonly_mount_read_operations (ctx : Ctx) (env : RoReadEnv) :
    List Event × Op Unit :=
  match env.listdir with
  | .error e =>
      ([logResult ctx "readonly_mount_read_operations" false (.exc e)], .ok ())
  | .ok items =>
      match env.statDir with
      | .error e =>
          ([logResult ctx "readonly_mount_read_operations" false (.exc e)], .ok ())
      | .ok () =>
          ([logResult ctx "readonly_mount_read_operations" true
              (.roItems items)], .ok ())

/-- `NFS3Test.mount`: `mkdtemp`, run the mount command (non-zero exit or
an exception returns `False`), then independently confirm the mount
point appears in the `mount` table output.  Returns `some mountPoint`
exactly when the method returns `True`; in every `False` path the later
code never reads `self.mount_point` again, so the failure collapses to
`none`. -/
def mount (o : NFSMountOptions) (mountType : String) (env : MountEnv) :
    List Event × Option String :=
  match env.mkdtemp with
  | .error _ => ([], none)
  | .ok mp =>
      let options := mount_options_arg o mountType
      match env.runMount with
      | .error _ => ([Event.mountCmd options], none)
      | .ok rc =>
          if rc ≠ 0 then ([Event.mountCmd options], none)
          else
            match env.mountTable with
            | .error _ => ([Event.mountCmd options], none)
            | .ok table =>
                if pyIn mp table then ([Event.mountCmd options], some mp)
                else ([Event.mountCmd options], none)

/-- `NFS3Test.unmount`: returns immediately on a falsy mount point,
otherwise issues the forced lazy umount (its own exceptions are caught
and only logged). -/
def unmount (mountPoint : Option String) : List Event :=
  match mountPoint with
  | none => []
  | some mp => if mp = "" then [] else [Event.umountCmd mp]

/-- `NFS3Test.setup`: raise on mount failure; for `ro` use the mount
point itself as test directory; otherwise create
`<mount_point>/<test_id>`, and on `OSError`/`IOError` unmount and
re-raise as `Exception(f"Failed to create test directory: {e}")`
(an exception of any other class propagates without the unmount, since
the `except` clause only names `(OSError, IOError)`). -/
def setup (opts : NFSMountOptions) (mountType : String) (env : Env) :
    List Event × Op Ctx :=
  match mount opts mountType env.mount with
  | (tr, none) => (tr, .error (.generic "Failed to mount NFS export"))
  | (tr, some mp) =>
      if mountType = "ro" then
        (tr, .ok ⟨mp, mp, opts, mountType⟩)
      else
        match env.mkTestDir with
        | .ok () => (tr, .ok ⟨mp, mp ++ "/" ++ env.testId, opts, mountType⟩)
        | .error (.os _ m) =>
            (tr ++ unmount (some mp),
             .error (.generic ("Failed to create test directory: " ++ m)))
        | .error (.generic m) => (tr, .error (.generic m))

/-- `NFS3Test.teardown`: in a `try` block, if
`mount_type == 'rw' and test_dir and os.path.exists(test_dir)` the
working directory is removed with `rm -rf` (an exception from it is
caught and only logged as a warning); the `finally` block always
unmounts.  The method can never raise. -/
def teardown (ctx : Ctx) (env : TdEnv) : List Event × Op Unit :=
  let cleanup : List Event :=
    if ctx.mountType = "rw" && ctx.testDir ≠ "" && env.dirExists then
      match env.rmrf with
      | .ok () => [Event.rmWorkDir]
      | .error _ => [Event.rmWorkDir]
    else []
  (Event.teardownStart :: (cleanup ++ unmount (some ctx.mountPoint)), .ok ())

/-- Sequence two traced computations, propagating a raised exception. -/
def tseq (a : List Event × Op Unit) (b : Unit → List Event × Op Unit) :
    List Event × Op Unit :=
  match a with
  | (tr, .error e) => (tr, .error e)
  | (tr, .ok ()) =>
      let r := b ()
      (tr ++ r.1, r.2)

/-- The ordered test battery inside `run_basic_tests`'s `try` block:
the two verification tests, then either the eight read-write tests
(with `num_files=100`, `num_writers=32`, `size_mb=128`) or the two
read-only tests. -/
def battery (ctx : Ctx) (env : Env) (mountType : String) :
    List Event × Op Unit :=
  tseq (test_mount_options_verification ctx env.mov) fun _ =>
  tseq (test_transport_protocol ctx env.tp) fun _ =>
  if mountType = "rw" then
    tseq (test_readwrite_mount_enforcement ctx env.rwEnf) fun _ =>
    tseq (test_basic_file_operations ctx env.basic) fun _ =>
    tseq (test_idempotent_operations ctx env.idem) fun _ =>
    tseq (test_close_to_open_consistency ctx env.c2o) fun _ =>
    tseq (test_nlm_basic_locking ctx env.nlm) fun _ =>
    tseq (test_small_file_performance ctx 100 env.small) fun _ =>
    tseq (test_concurrent_writers ctx 32 env.conc) fun _ =>
    test_large_file_sequential_io ctx 128 env.large
  else
    tseq (test_readonly_mount_enforcement ctx env.roEnf) fun _ =>
    test_readonly_mount_read_operations ctx env.roRead

/-- `NFSMountOptions(transport='tcp')` as built by `run_basic_tests`
(every other field keeps its dataclass default). -/
def defaultTcpOptions : NFSMountOptions :=
  ⟨"tcp", 1048576, 1048576, 600, 2, false, true, false, none, 3, 60, 30, 60,
   false, false⟩

/-- `NFS3TestRunner.run_basic_tests`: `setup()` runs outside the
`try`/`finally` (a setup failure propagates with no teardown); the
battery runs inside `try` with `teardown()` in `finally`, so teardown
runs whether or not the battery raised; a battery exception is
re-raised after teardown, otherwise the recorded results are returned. -/
def run_basic_tests (env : Env) (mountType : String) :
    List Event × Op (List TestResult) :=
  match setup defaultTcpOptions mountType env with
  | (tr, .error e) => (tr, .error e)
  | (tr, .ok ctx) =>
      let b := battery ctx env mountType
      let td := teardown ctx env.td
      match b.2 with
      | .error e => (tr ++ b.1 ++ td.1, .error e)
      | .ok () => (tr ++ b.1 ++ td.1, .ok (resultsOf b.1))

/-- Number of results with `passed` true. -/
def passedCount (rs : List TestResult) : Nat :=
  (rs.filter fun r => r.passed).length

/-- `NFS3TestRunner.print_summary`: computes
`100*passed/total` and `100*failed/total` with Python integer true
division — with zero recorded results the first f-string raises
`ZeroDivisionError`. -/
def print_summary (rs : List TestResult) : Op (ℚ × ℚ) :=
  let total := rs.length
  let passed := passedCount rs
  let failed := total - passed
  match pyDivInt (100 * (passed : Int)) (total : Int) with
  | .error e => .error e
  | .ok passedPct =>
      match pyDivInt (100 * (failed : Int)) (total : Int) with
      | .error e => .error e
      | .ok failedPct => .ok (passedPct, failedPct)

/-- The success-rate figure of `TextDocLogger.generate_report`:
`passed/total*100` when `total > 0`, otherwise the literal `"N/A"`
(modelled as `none`). -/
def generateReportRate (rs : List TestResult) : Option ℚ :=
  if 0 < rs.length then
    some ((passedCount rs : ℚ) / (rs.length : ℚ) * 100)
  else none

/-- The `__main__` configuration loop: one fresh runner per configured
export, `run_basic_tests(mount_type)` then `print_summary()`; there is
no exception handling here, so a raised exception aborts the loop. -/
def mainLoop : List (String × Env) → List Event × Op Unit
  | [] => ([], .ok ())
  | (mt, env) :: rest =>
      match run_basic_tests env mt with
      | (tr, .error e) => (tr, .error e)
      | (tr, .ok rs) =>
          match print_summary rs with
          | .error e => (tr, .error e)
          | .ok _ =>
              let r := mainLoop rest
              (tr ++ Event.summaryPrinted rs.length (passedCount rs) :: r.1, r.2)

/-- The whole `__main__` body after the privilege check: the config
loop, then `text_logger.generate_report()` over every recorded result;
the report is only reached when no battery raised. -/
def mainRun (cfgs : List (String × Env)) : List Event × Op Unit :=
  match mainLoop cfgs with
  | (tr, .error e) => (tr, .error e)
  | (tr, .ok ()) =>
      let allResults := resultsOf tr
      (tr ++ [Event.reportWritten allResults.length (passedCount allResults)
                (generateReportRate allResults)],
       .ok ())

/-- The result names of the read-write battery, in execution order. -/
def tenNames : List String :=
  ["mount_options_verification", "transport_protocol",
   "readwrite_mount_enforcement", "basic_file_operations",
   "idempotent_operations", "close_to_open_consistency",
   "nlm_basic_locking", "small_file_performance", "concurrent_writers",
   "large_sequential_io"]

/-- The result names of the read-only battery, in execution order. -/
def fourNames : List String :=
  ["mount_options_verification", "transport_protocol",
   "readonly_mount_enforcement", "readonly_mount_read_operations"]

/-- Shorthand for a succeeding `Op Unit`. -/
def okU : Op Unit := Except.ok ()

def goodMountEnv : MountEnv :=
  ⟨Except.ok "/tmp/nfs3_test_a", Except.ok 0,
   Except.ok "server:/export on /tmp/nfs3_test_a type nfs (rw)"⟩

def goodProcMounts : ProcMountsEnv :=
  ⟨Except.ok "server:/export /tmp/nfs3_test_a nfs rw,proto=tcp,vers=3 0 0"⟩

def goodFileOpsRw : FileOpsEnv := ⟨okU, Except.ok "RW mount test", okU⟩

def goodFileOpsBasic : FileOpsEnv := ⟨okU, Except.ok "Hello NFS3", okU⟩

def goodIdem : IdemEnv :=
  ⟨fun _ => okU, Except.ok "Iteration 2", okU,
   Except.error (Err.os 2 "[Errno 2] No such file or directory")⟩

def goodC2o : C2oEnv := ⟨okU, Except.ok "Process 1 data"⟩

def goodNlm : NlmEnv :=
  ⟨okU, okU, okU,
   ⟨okU, Except.error (Err.os 11 "[Errno 11] Resource temporarily unavailable")⟩,
   okU, okU⟩

def goodSmall : SmallEnv :=
  ⟨okU, fun _ => okU, fun _ => okU, fun _ => okU, 1, 1, 1⟩

def goodConc : ConcEnv := ⟨okU, fun _ => ⟨okU, Except.ok ""⟩, 1⟩

def goodLarge : LargeEnv := ⟨fun _ => okU, okU, okU, 1, 1⟩

def goodRoEnf : RoEnfEnv :=
  ⟨Except.error (Err.os 30 "[Errno 30] Read-only file system")⟩

def goodRoRead : RoReadEnv := ⟨Except.ok 3, okU⟩

def goodTd : TdEnv := ⟨true, okU⟩

/-- A session environment in which every operation succeeds. -/
def envRwGood : Env :=
  ⟨goodMountEnv, okU, "test_1_42", goodProcMounts, goodProcMounts,
   goodFileOpsRw, goodFileOpsBasic, goodIdem, goodC2o, goodNlm, goodSmall,
   goodConc, goodLarge, goodRoEnf, goodRoRead, goodTd⟩

/-- Small-file environment whose `os.makedirs` raises `OSError(5)`. -/
def badSmall : SmallEnv :=
  ⟨Except.error (Err.os 5 "[Errno 5] Input/output error"),
   fun _ => okU, fun _ => okU, fun _ => okU, 1, 1, 1⟩

/-- `envRwGood` except that `os.makedirs('small_files')` raises. -/
def envC1 : Env := { envRwGood with small := badSmall }

/-- Small-file environment whose `os.makedirs` raises `OSError(28)`. -/
def smallNoSpace : SmallEnv :=
  ⟨Except.error (Err.os 28 "[Errno 28] No space left on device"),
   fun _ => okU, fun _ => okU, fun _ => okU, 1, 1, 1⟩

/-- `envRwGood` except that the creation of the `small_files`
subdirectory fails with ENOSPC. -/
def envC6bad : Env := { envRwGood with small := smallNoSpace }

/-- Mount environment where the mount command exits non-zero. -/
def badMountEnv : MountEnv :=
  ⟨Except.ok "/tmp/nfs3_test_b", Except.ok 32, Except.ok ""⟩

/-- `envRwGood` except that the mount command fails. -/
def envC3bad : Env := { envRwGood with mount := badMountEnv }

/-- Two configured exports as in `STORAGE_CONFIG`: a read-write one
(whose mount fails) followed by a read-only one. -/
def cfgsC3 : List (String × Env) := [("rw", envC3bad), ("ro", envRwGood)]

/-- The session state after a successful read-write setup of
`envRwGood`. -/
def ctxA : Ctx :=
  ⟨"/tmp/nfs3_test_a", "/tmp/nfs3_test_a/test_1_42", defaultTcpOptions, "rw"⟩

/-- The session state after a successful read-only setup. -/
def ctxRo : Ctx :=
  ⟨"/tmp/nfs3_test_a", "/tmp/nfs3_test_a", defaultTcpOptions, "ro"⟩

/-- Locking environment where the spawned child's non-blocking
exclusive lock attempt succeeds (no would-block observed). -/
def nlmChildAcquires : NlmEnv := ⟨okU, okU, okU, ⟨okU, okU⟩, okU, okU⟩

/-- Idempotence environment where the second `os.remove` silently
succeeds instead of raising `FileNotFoundError`. -/
def idemSilentSecond : IdemEnv :=
  ⟨fun _ => okU, Except.ok "Iteration 2", okU, okU⟩

def passResult : TestResult := ⟨"t", true, Msg.text "", "tcp"⟩

def failResult : TestResult := ⟨"t", false, Msg.text "", "tcp"⟩

/-- Ten recorded results, all passed. -/
def tenAllPass : List TestResult := List.replicate 10 passResult

/-- Ten recorded results, seven passed and three failed. -/
def sevenOfTen : List TestResult :=
  List.replicate 7 passResult ++ List.replicate 3 failResult

/-- A read-only session environment: same collaborator outcomes as
`envRwGood` (the read-only battery only consults the mount, the two
`/proc/mounts` reads, and the two read-only probes). -/
def envRoGood : Env := envRwGood

theorem tseq_ok (tr : List Event) (b : Unit → List Event × Op Unit) :
    tseq (tr, Except.ok ()) b = (tr ++ (b ()).1, (b ()).2) := rfl

theorem tseq_error (tr : List Event) (e : Err) (b : Unit → List Event × Op Unit) :
    tseq (tr, Except.error e) b = (tr, Except.error e) := rfl

theorem resultsOf_append (a b : List Event) :
    resultsOf (a ++ b) = resultsOf a ++ resultsOf b := by
  simp [resultsOf]

theorem resultsOf_logResult (ctx : Ctx) (n : String) (p : Bool) (m : Msg) :
    resultsOf [logResult ctx n p m] = [⟨n, p, m, ctx.opts.transport⟩] := rfl

theorem isRecorded_logResult (ctx : Ctx) (n : String) (p : Bool) (m : Msg) :
    (logResult ctx n p m).isRecorded = true := rfl

theorem mov_shape (ctx : Ctx) (env : ProcMountsEnv) :
    ∃ p m, test_mount_options_verification ctx env =
      ([logResult ctx "mount_options_verification" p m], Except.ok ()) := by
  unfold test_mount_options_verification
  repeat' split
  all_goals exact ⟨_, _, rfl⟩

theorem tp_shape (ctx : Ctx) (env : ProcMountsEnv) :
    ∃ p m, test_transport_protocol ctx env =
      ([logResult ctx "transport_protocol" p m], Except.ok ()) := by
  unfold test_transport_protocol
  repeat' split
  all_goals exact ⟨_, _, rfl⟩

theorem fileOpsBody_shape (ctx : Ctx) (tn td : String) (env : FileOpsEnv) :
    ∃ p m, fileOpsBody ctx tn td env =
      ([logResult ctx tn p m], Except.ok ()) := by
  unfold fileOpsBody
  repeat' split
  all_goals exact ⟨_, _, rfl⟩

theorem rwEnf_shape (ctx : Ctx) (env : FileOpsEnv) :
    ∃ p m, test_readwrite_mount_enforcement ctx env =
      ([logResult ctx "readwrite_mount_enforcement" p m], Except.ok ()) :=
  fileOpsBody_shape ctx "readwrite_mount_enforcement" "RW mount test" env

theorem basic_shape (ctx : Ctx) (env : FileOpsEnv) :
    ∃ p m, test_basic_file_operations ctx env =
      ([logResult ctx "basic_file_operations" p m], Except.ok ()) :=
  fileOpsBody_shape ctx "basic_file_operations" "Hello NFS3" env

theorem idem_shape (ctx : Ctx) (env : IdemEnv) :
    ∃ p m, test_idempotent_operations ctx env =
      ([logResult ctx "idempotent_operations" p m], Except.ok ()) := by
  unfold test_idempotent_operations
  repeat' split
  all_goals exact ⟨_, _, rfl⟩

theorem c2o_shape (ctx : Ctx) (env : C2oEnv) :
    ∃ p m, test_close_to_open_consistency ctx env =
      ([logResult ctx "close_to_open_consistency" p m], Except.ok ()) := by
  unfold test_close_to_open_consistency
  repeat' split
  all_goals exact ⟨_, _, rfl⟩

theorem nlm_shape (ctx : Ctx) (env : NlmEnv) :
    ∃ p m, test_nlm_basic_locking ctx env =
      ([logResult ctx "nlm_basic_locking" p m], Except.ok ()) := by
  unfold test_nlm_basic_locking
  repeat' split
  all_goals exact ⟨_, _, rfl⟩

theorem small_shape (ctx : Ctx) (n : Nat) (env : SmallEnv)
    (hm : env.makedirs = Except.ok ()) :
    ∃ p m, test_small_file_performance ctx n env =
      ([logResult ctx "small_file_performance" p m], Except.ok ()) := by
  unfold test_small_file_performance
  rw [hm]
  repeat' split
  all_goals first
  | exact ⟨_, _, rfl⟩
  | simp_all

theorem small_escape (ctx : Ctx) (n : Nat) (env : SmallEnv) (e : Err)
    (hm : env.makedirs = Except.error e) :
    test_small_file_performance ctx n env = ([], Except.error e) := by
  unfold test_small_file_performance
  rw [hm]

theorem conc_shape (ctx : Ctx) (n : Nat) (env : ConcEnv) :
    ∃ p m, test_concurrent_writers ctx n env =
      ([logResult ctx "concurrent_writers" p m], Except.ok ()) := by
  unfold test_concurrent_writers
  repeat' split
  all_goals exact ⟨_, _, rfl⟩

theorem large_shape (ctx : Ctx) (n : Nat) (env : LargeEnv) :
    ∃ p m, test_large_file_sequential_io ctx n env =
      ([logResult ctx "large_sequential_io" p m], Except.ok ()) := by
  unfold test_large_file_sequential_io
  repeat' split
  all_goals exact ⟨_, _, rfl⟩

theorem roEnf_shape (ctx : Ctx) (env : RoEnfEnv) :
    ∃ p m, test_readonly_mount_enforcement ctx env =
      ([logResult ctx "readonly_mount_enforcement" p m], Except.ok ()) := by
  unfold test_readonly_mount_enforcement
  repeat' split
  all_goals exact ⟨_, _, rfl⟩

theorem roRead_shape (ctx : Ctx) (env : RoReadEnv) :
    ∃ p m, test_readonly_mount_read_operations ctx env =
      ([logResult ctx "readonly_mount_read_operations" p m], Except.ok ()) := by
  unfold test_readonly_mount_read_operations
  repeat' split
  all_goals exact ⟨_, _, rfl⟩

theorem not_mem_of_all (p : Event → Bool) (tr : List Event)
    (h : tr.all p = true) (ev : Event) (hev : p ev = false) : ev ∉ tr := by
  intro hmem
  have := List.all_eq_true.mp h ev hmem
  simp_all

theorem battery_rw_ok (ctx : Ctx) (env : Env)
    (hm : env.small.makedirs = Except.ok ()) :
    (battery ctx env "rw").2 = Except.ok () ∧
    (resultsOf (battery ctx env "rw").1).map (fun r => r.test) = tenNames := by
  obtain ⟨p1, m1, h1⟩ := mov_shape ctx env.mov
  obtain ⟨p2, m2, h2⟩ := tp_shape ctx env.tp
  obtain ⟨p3, m3, h3⟩ := rwEnf_shape ctx env.rwEnf
  obtain ⟨p4, m4, h4⟩ := basic_shape ctx env.basic
  obtain ⟨p5, m5, h5⟩ := idem_shape ctx env.idem
  obtain ⟨p6, m6, h6⟩ := c2o_shape ctx env.c2o
  obtain ⟨p7, m7, h7⟩ := nlm_shape ctx env.nlm
  obtain ⟨p8, m8, h8⟩ := small_shape ctx 100 env.small hm
  obtain ⟨p9, m9, h9⟩ := conc_shape ctx 32 env.conc
  obtain ⟨p10, m10, h10⟩ := large_shape ctx 128 env.large
  unfold battery
  rw [h1, h2, h3, h4, h5, h6, h7, h8, h9, h10]
  simp [tseq_ok, resultsOf, logResult, tenNames]

theorem battery_ro_ok (ctx : Ctx) (env : Env) :
    (battery ctx env "ro").2 = Except.ok () ∧
    (resultsOf (battery ctx env "ro").1).map (fun r => r.test) = fourNames := by
  obtain ⟨p1, m1, h1⟩ := mov_shape ctx env.mov
  obtain ⟨p2, m2, h2⟩ := tp_shape ctx env.tp
  obtain ⟨p3, m3, h3⟩ := roEnf_shape ctx env.roEnf
  obtain ⟨p4, m4, h4⟩ := roRead_shape ctx env.roRead
  unfold battery
  rw [h1, h2, h3, h4]
  simp [tseq_ok, resultsOf, logResult, fourNames]

theorem battery_all_recorded (ctx : Ctx) (env : Env) (mt : String) :
    ((battery ctx env mt).1.all Event.isRecorded) = true := by
  obtain ⟨p1, m1, h1⟩ := mov_shape ctx env.mov
  obtain ⟨p2, m2, h2⟩ := tp_shape ctx env.tp
  unfold battery
  by_cases hmt : mt = "rw"
  · subst hmt
    obtain ⟨p3, m3, h3⟩ := rwEnf_shape ctx env.rwEnf
    obtain ⟨p4, m4, h4⟩ := basic_shape ctx env.basic
    obtain ⟨p5, m5, h5⟩ := idem_shape ctx env.idem
    obtain ⟨p6, m6, h6⟩ := c2o_shape ctx env.c2o
    obtain ⟨p7, m7, h7⟩ := nlm_shape ctx env.nlm
    obtain ⟨p9, m9, h9⟩ := conc_shape ctx 32 env.conc
    obtain ⟨p10, m10, h10⟩ := large_shape ctx 128 env.large
    cases hsm : env.small.makedirs with
    | ok u =>
        cases u
        obtain ⟨p8, m8, h8⟩ := small_shape ctx 100 env.small hsm
        rw [h1, h2, h3, h4, h5, h6, h7, h8, h9, h10]
        simp [tseq_ok, logResult, Event.isRecorded]
    | error e =>
        have h8 := small_escape ctx 100 env.small e hsm
        rw [h1, h2, h3, h4, h5, h6, h7, h8]
        simp [tseq_ok, tseq_error, logResult, Event.isRecorded]
  · rw [if_neg hmt]
    obtain ⟨p3, m3, h3⟩ := roEnf_shape ctx env.roEnf
    obtain ⟨p4, m4, h4⟩ := roRead_shape ctx env.roRead
    rw [h1, h2, h3, h4]
    simp [tseq_ok, logResult, Event.isRecorded]

theorem mount_all_mountCmd (o : NFSMountOptions) (mt : String) (env : MountEnv) :
    ((mount o mt env).1.all Event.isMountCmd) = true := by
  unfold mount
  repeat' split
  all_goals simp [Event.isMountCmd]

theorem setup_ok_facts (o : NFSMountOptions) (mt : String) (env : Env)
    (tr : List Event) (ctx : Ctx)
    (h : setup o mt env = (tr, Except.ok ctx)) :
    (tr.all Event.isMountCmd) = true ∧ ctx.mountType = mt := by
  unfold setup at h
  split at h
  · simp at h
  · rename_i tr1 mp heq
    have hall : (tr1.all Event.isMountCmd) = true := by
      have := mount_all_mountCmd o mt env.mount
      rw [heq] at this
      exact this
    split at h
    · simp only [Prod.mk.injEq, Except.ok.injEq] at h
      obtain ⟨rfl, rfl⟩ := h
      exact ⟨hall, rfl⟩
    · split at h
      · simp only [Prod.mk.injEq, Except.ok.injEq] at h
        obtain ⟨rfl, rfl⟩ := h
        exact ⟨hall, rfl⟩
      · simp at h
      · simp at h

theorem teardown_shape (ctx : Ctx) (env : TdEnv) (hmp : ctx.mountPoint ≠ "") :
    ∃ c, (teardown ctx env).1 =
        Event.teardownStart :: (c ++ [Event.umountCmd ctx.mountPoint]) ∧
      (∀ ev ∈ c, ev = Event.rmWorkDir) ∧
      (teardown ctx env).2 = Except.ok () ∧
      (ctx.mountType ≠ "rw" → c = []) := by
  unfold teardown unmount
  by_cases hc : (ctx.mountType = "rw" && ctx.testDir ≠ "" && env.dirExists) = true
  · rw [if_pos hc]
    simp only [Bool.and_eq_true, decide_eq_true_eq] at hc
    cases hr : env.rmrf with
    | ok u =>
        cases u
        exact ⟨[Event.rmWorkDir], by simp [hmp], by simp, rfl,
          fun hne => absurd hc.1.1 hne⟩
    | error e =>
        exact ⟨[Event.rmWorkDir], by simp [hmp], by simp, rfl,
          fun hne => absurd hc.1.1 hne⟩
  · rw [if_neg hc]
    exact ⟨[], by simp [hmp], by simp, rfl, fun _ => rfl⟩

theorem run_trace_decomp (env : Env) (mt : String) (tr : List Event) (ctx : Ctx)
    (h : setup defaultTcpOptions mt env = (tr, Except.ok ctx)) :
    (run_basic_tests env mt).1 =
      tr ++ (battery ctx env mt).1 ++ (teardown ctx env.td).1 := by
  unfold run_basic_tests
  rw [h]
  dsimp only
  cases hb : (battery ctx env mt).2 <;> simp

/-- C2: once setup has succeeded, `run_basic_tests` runs teardown exactly
once (the `finally` block), whether or not the battery raised; teardown
begins with at most a working-directory removal — which only happens in
read-write mode — followed by the unmount, and teardown itself never
raises. -/
theorem c2_teardown_exactly_once (env : Env) (mt : String) (tr : List Event)
    (ctx : Ctx) (h : setup defaultTcpOptions mt env = (tr, Except.ok ctx))
    (hmp : ctx.mountPoint ≠ "") :
    ((run_basic_tests env mt).1.count Event.teardownStart) = 1 ∧
    Event.umountCmd ctx.mountPoint ∈ (run_basic_tests env mt).1 ∧
    (mt ≠ "rw" → Event.rmWorkDir ∉ (run_basic_tests env mt).1) ∧
    (teardown ctx env.td).2 = Except.ok () ∧
    (∃ c, (teardown ctx env.td).1 =
        Event.teardownStart :: (c ++ [Event.umountCmd ctx.mountPoint]) ∧
      ∀ ev ∈ c, ev = Event.rmWorkDir) := by
  obtain ⟨hall, hmt⟩ := setup_ok_facts defaultTcpOptions mt env tr ctx h
  obtain ⟨c, htd, hc, htd2, hro⟩ := teardown_shape ctx env.td hmp
  have hrun := run_trace_decomp env mt tr ctx h
  have hbat := battery_all_recorded ctx env mt
  refine ⟨?_, ?_, ?_, htd2, ⟨c, htd, hc⟩⟩
  · rw [hrun, List.count_append, List.count_append]
    have h1 : tr.count Event.teardownStart = 0 :=
      List.count_eq_zero.mpr (not_mem_of_all _ tr hall _ rfl)
    have h2 : (battery ctx env mt).1.count Event.teardownStart = 0 :=
      List.count_eq_zero.mpr (not_mem_of_all _ _ hbat _ rfl)
    have h3 : (teardown ctx env.td).1.count Event.teardownStart = 1 := by
      rw [htd, List.count_cons_self, List.count_append]
      have hcc : c.count Event.teardownStart = 0 := by
        refine List.count_eq_zero.mpr ?_
        intro hm2
        exact absurd (hc _ hm2) (by simp)
      simp [hcc]
    rw [h1, h2, h3]
  · rw [hrun]
    simp only [List.mem_append]
    refine Or.inr ?_
    rw [htd]
    simp
  · intro hne
    have hcnil : c = [] := hro (by rw [hmt]; exact hne)
    rw [hrun]
    simp only [List.mem_append, not_or]
    refine ⟨⟨not_mem_of_all _ tr hall _ rfl, not_mem_of_all _ _ hbat _ rfl⟩, ?_⟩
    rw [htd, hcnil]
    simp

/-- C6 counterexample: the claim as stated fails on the code.  In a
read-write session where every operation succeeds except the creation
of the `small_files` subdirectory (`OSError(28)` — the one statement of
the battery outside any per-test `try` block), the battery does not
yield 10 results: it records exactly 7, records none for
`small_file_performance`, and `run_basic_tests` ends in the escaping
exception instead of returning a result list. -/
theorem c6_ten_results_counterexample :
    (resultsOf (run_basic_tests envC6bad "rw").1).length = 7 ∧
    (run_basic_tests envC6bad "rw").2 =
      Except.error (Err.os 28 "[Errno 28] No space left on device") ∧
    "small_file_performance" ∉
      (resultsOf (run_basic_tests envC6bad "rw").1).map (fun r => r.test) := by
  decide

/-- C6 amended: once setup succeeded and, for the read-write case, the
one statement of `test_small_file_performance` that sits outside its
`try` block — the `os.makedirs` of the `small_files` subdirectory — did
not raise, the read-write battery returns exactly 10 results whose names
are the ten probes in their fixed order, and the read-only battery
returns exactly the 4 read-only probe results in their fixed order. -/
theorem c6_battery_result_counts (envA envB : Env) (trA trB : List Event)
    (cA cB : Ctx)
    (hA : setup defaultTcpOptions "rw" envA = (trA, Except.ok cA))
    (hmA : envA.small.makedirs = Except.ok ())
    (hB : setup defaultTcpOptions "ro" envB = (trB, Except.ok cB)) :
    ∃ rsA rsB : List TestResult,
      (run_basic_tests envA "rw").2 = Except.ok rsA ∧
      rsA.map (fun r => r.test) = tenNames ∧ rsA.length = 10 ∧
      (run_basic_tests envB "ro").2 = Except.ok rsB ∧
      rsB.map (fun r => r.test) = fourNames ∧ rsB.length = 4 := by
  obtain ⟨hA2, hAn⟩ := battery_rw_ok cA envA hmA
  obtain ⟨hB2, hBn⟩ := battery_ro_ok cB envB
  refine ⟨resultsOf (battery cA envA "rw").1, resultsOf (battery cB envB "ro").1,
    ?_, hAn, ?_, ?_, hBn, ?_⟩
  · unfold run_basic_tests
    rw [hA]
    dsimp only
    rw [hA2]
  · have hlen := congrArg List.length hAn
    simpa [tenNames] using hlen
  · unfold run_basic_tests
    rw [hB]
    dsimp only
    rw [hB2]
  · have hlen := congrArg List.length hBn
    simpa [fourNames] using hlen

/-- C1: the claim fails on the code.  In a session where every operation
succeeds except the `os.makedirs('small_files')` call of
`test_small_file_performance` — the one statement of a test body sitting
outside its `try` block — the exception escapes `run_basic_tests`: the
battery records only the 7 results preceding that case, records no
failed result for it, and never runs `concurrent_writers` or
`large_sequential_io` (teardown still runs once via `finally`). -/
theorem c1_small_file_fault_escapes_battery :
    (run_basic_tests envC1 "rw").2 =
      Except.error (Err.os 5 "[Errno 5] Input/output error") ∧
    (resultsOf (run_basic_tests envC1 "rw").1).map (fun r => r.test) =
      ["mount_options_verification", "transport_protocol",
       "readwrite_mount_enforcement", "basic_file_operations",
       "idempotent_operations", "close_to_open_consistency",
       "nlm_basic_locking"] ∧
    ((run_basic_tests envC1 "rw").1.count Event.teardownStart) = 1 := by
  decide

/-- C3 counterexample: with two configured exports whose first mount
fails, the whole run aborts — the second battery never runs (the trace
is exactly the failed first session's trace), no test result is
recorded, and neither a summary nor the report is produced. -/
theorem c3_mount_fault_aborts_run :
    (mainRun cfgsC3).2 = Except.error (Err.generic "Failed to mount NFS export") ∧
    (mainRun cfgsC3).1 = (run_basic_tests envC3bad "rw").1 ∧
    ((mainRun cfgsC3).1.all fun ev => !ev.isSummary && !ev.isReport) = true ∧
    resultsOf (mainRun cfgsC3).1 = [] := by
  decide

/-- C4: the claim fails on the code.  When the spawned child's
non-blocking exclusive-lock attempt succeeds (so `try_lock_exclusive`
returns `False`, meaning no would-block was observed), the probe still
records `nlm_basic_locking` as passed: the child's boolean is discarded
by `multiprocessing.Process`. -/
theorem c4_child_lock_result_discarded :
    (resultsOf (test_nlm_basic_locking ctxA nlmChildAcquires).1).map
        (fun r => (r.test, r.passed)) = [("nlm_basic_locking", true)] ∧
    try_lock_exclusive nlmChildAcquires.child = false := by
  decide

/-- C5: the claim fails on the code.  When the second `os.remove`
silently succeeds (no `FileNotFoundError`), the probe only logs an error
line and still records `idempotent_operations` as passed. -/
theorem c5_second_delete_silent_success_passes :
    (resultsOf (test_idempotent_operations ctxA idemSilentSecond).1).map
        (fun r => (r.test, r.passed)) = [("idempotent_operations", true)] ∧
    idemSilentSecond.removeSecond = Except.ok () := by
  decide

/-- C7 counterexample: `print_summary` over zero recorded results raises
`ZeroDivisionError` at `100*passed/total` instead of reporting an
undefined ratio. -/
theorem c7_print_summary_zero_division :
    print_summary [] = Except.error (Err.generic "division by zero") := by
  decide

theorem all_imp (p q : Event → Bool) (tr : List Event)
    (hpq : ∀ ev, p ev = true → q ev = true) (h : tr.all p = true) :
    tr.all q = true := by
  rw [List.all_eq_true] at h ⊢
  intro ev hev
  exact hpq ev (h ev hev)

theorem mountCmd_not_summary (ev : Event) (h : ev.isMountCmd = true) :
    (!ev.isSummary && !ev.isReport) = true := by
  cases ev <;> simp_all [Event.isMountCmd, Event.isSummary, Event.isReport]

theorem setup_trace_no_summary (o : NFSMountOptions) (mt : String) (env : Env) :
    (((setup o mt env).1).all fun ev => !ev.isSummary && !ev.isReport) = true := by
  unfold setup
  split
  · rename_i tr1 heq
    have hall := mount_all_mountCmd o mt env.mount
    rw [heq] at hall
    exact all_imp _ _ _ mountCmd_not_summary hall
  · rename_i tr1 mp heq
    have hall := mount_all_mountCmd o mt env.mount
    rw [heq] at hall
    have htr1 := all_imp _ _ _ mountCmd_not_summary hall
    split
    · exact htr1
    · split
      · exact htr1
      · rw [List.all_append]
        simp only at htr1
        rw [htr1, Bool.true_and]
        unfold unmount
        dsimp only
        split <;> simp [Event.isSummary, Event.isReport]
      · exact htr1

/-- C3 amended: a mount-lifecycle fault (mount command failure,
mount-table verification miss, or working-directory creation failure)
makes `setup` raise; the exception escapes `run_basic_tests` and the
`__main__` loop, so the batteries of the remaining configured exports
never run and the run ends with neither a summary nor a report — the
whole run's trace is exactly the failed session's mount trace. -/
theorem c3_amended_run_aborts (mt : String) (env : Env)
    (rest : List (String × Env)) (tr : List Event) (e : Err)
    (h : setup defaultTcpOptions mt env = (tr, Except.error e)) :
    mainRun ((mt, env) :: rest) = (tr, Except.error e) ∧
    (tr.all fun ev => !ev.isSummary && !ev.isReport) = true := by
  have hrun : run_basic_tests env mt = (tr, Except.error e) := by
    unfold run_basic_tests
    rw [h]
  constructor
  · unfold mainRun mainLoop
    rw [hrun]
  · have hs := setup_trace_no_summary defaultTcpOptions mt env
    rw [h] at hs
    exact hs

/-- C3 amended, witnessed at the concrete two-export configuration whose
first mount command fails. -/
theorem c3_amended_witness :
    mainRun (("rw", envC3bad) :: [("ro", envRwGood)]) =
      ((setup defaultTcpOptions "rw" envC3bad).1,
        Except.error (Err.generic "Failed to mount NFS export")) ∧
    (((setup defaultTcpOptions "rw" envC3bad).1).all
        fun ev => !ev.isSummary && !ev.isReport) = true :=
  c3_amended_run_aborts "rw" envC3bad [("ro", envRwGood)]
    (setup defaultTcpOptions "rw" envC3bad).1
    (Err.generic "Failed to mount NFS export") (by decide)

/-- C2, witnessed at the concrete read-only session environment. -/
theorem c2_teardown_witness :
    ((run_basic_tests envRoGood "ro").1.count Event.teardownStart) = 1 ∧
    Event.umountCmd ctxRo.mountPoint ∈ (run_basic_tests envRoGood "ro").1 ∧
    ("ro" ≠ "rw" → Event.rmWorkDir ∉ (run_basic_tests envRoGood "ro").1) ∧
    (teardown ctxRo envRoGood.td).2 = Except.ok () ∧
    (∃ c, (teardown ctxRo envRoGood.td).1 =
        Event.teardownStart :: (c ++ [Event.umountCmd ctxRo.mountPoint]) ∧
      ∀ ev ∈ c, ev = Event.rmWorkDir) :=
  c2_teardown_exactly_once envRoGood "ro"
    (setup defaultTcpOptions "ro" envRoGood).1 ctxRo (by decide) (by decide)

/-- C6, witnessed at the concrete all-succeeding read-write and
read-only session environments. -/
theorem c6_battery_counts_witness :
    ∃ rsA rsB : List TestResult,
      (run_basic_tests envRwGood "rw").2 = Except.ok rsA ∧
      rsA.map (fun r => r.test) = tenNames ∧ rsA.length = 10 ∧
      (run_basic_tests envRoGood "ro").2 = Except.ok rsB ∧
      rsB.map (fun r => r.test) = fourNames ∧ rsB.length = 4 :=
  c6_battery_result_counts envRwGood envRoGood
    (setup defaultTcpOptions "rw" envRwGood).1
    (setup defaultTcpOptions "ro" envRoGood).1 ctxA ctxRo
    (by decide) (by decide) (by decide)

/-- C7 amended: with at least one recorded result both summary readers
compute the exact ratio `passed/total*100` (100.0% for 10/10, 70.0% for
7/10); with zero recorded results `generate_report` reports `N/A`, but
`print_summary` raises a `ZeroDivisionError` instead of reporting an
undefined ratio (the program itself never reaches `print_summary` with
an empty record set, since it is only called after a battery returned). -/
theorem passedCount_tenAllPass : passedCount tenAllPass = 10 := by decide

theorem length_tenAllPass : tenAllPass.length = 10 := by decide

theorem passedCount_sevenOfTen : passedCount sevenOfTen = 7 := by decide

theorem length_sevenOfTen : sevenOfTen.length = 10 := by decide

theorem print_summary_ten : print_summary tenAllPass = Except.ok (100, 0) := by
  unfold print_summary pyDivInt
  dsimp only
  rw [passedCount_tenAllPass, length_tenAllPass]
  norm_num

theorem print_summary_seven : print_summary sevenOfTen = Except.ok (70, 30) := by
  unfold print_summary pyDivInt
  dsimp only
  rw [passedCount_sevenOfTen, length_sevenOfTen]
  norm_num

theorem report_rate_ten : generateReportRate tenAllPass = some 100 := by
  unfold generateReportRate
  rw [passedCount_tenAllPass, length_tenAllPass]
  norm_num

theorem report_rate_seven : generateReportRate sevenOfTen = some 70 := by
  unfold generateReportRate
  rw [passedCount_sevenOfTen, length_sevenOfTen]
  norm_num

theorem c7_summary_ratio_amended (rs : List TestResult) (h : rs ≠ []) :
    print_summary rs =
      Except.ok ((100 * (passedCount rs : ℚ)) / (rs.length : ℚ),
        (100 * ((rs.length - passedCount rs : Nat) : ℚ)) / (rs.length : ℚ)) ∧
    generateReportRate rs = some ((passedCount rs : ℚ) / (rs.length : ℚ) * 100) ∧
    print_summary tenAllPass = Except.ok (100, 0) ∧
    print_summary sevenOfTen = Except.ok (70, 30) ∧
    generateReportRate tenAllPass = some 100 ∧
    generateReportRate sevenOfTen = some 70 ∧
    generateReportRate [] = none := by
  have h0 : rs.length ≠ 0 := fun hh => h (List.length_eq_zero.mp hh)
  have htot : (rs.length : Int) ≠ 0 := by exact_mod_cast h0
  refine ⟨?_, ?_, print_summary_ten, print_summary_seven, report_rate_ten,
    report_rate_seven, by decide⟩
  · unfold print_summary pyDivInt
    dsimp only
    rw [if_neg htot, if_neg htot]
    push_cast
    ring_nf
  · unfold generateReportRate
    rw [if_pos (List.length_pos.mpr h)]

/-- C7 amended, witnessed at the concrete ten-result all-pass record
set. -/
theorem c7_summary_ratio_witness :
    print_summary tenAllPass =
      Except.ok ((100 * (passedCount tenAllPass : ℚ)) / (tenAllPass.length : ℚ),
        (100 * ((tenAllPass.length - passedCount tenAllPass : Nat) : ℚ)) /
          (tenAllPass.length : ℚ)) ∧
    generateReportRate tenAllPass =
      some ((passedCount tenAllPass : ℚ) / (tenAllPass.length : ℚ) * 100) ∧
    print_summary tenAllPass = Except.ok (100, 0) ∧
    print_summary sevenOfTen = Except.ok (70, 30) ∧
    generateReportRate tenAllPass = some 100 ∧
    generateReportRate sevenOfTen = some 70 ∧
    generateReportRate [] = none :=
  c7_summary_ratio_amended tenAllPass (by decide)

/-- C8: the read-only write-enforcement probe records exactly one
result, and that result is a pass precisely when the write attempt was
rejected with an `OSError`/`IOError` whose errno is 30 (EROFS) or 13
(EACCES); a successful write or any other exception is recorded as a
failure. -/
theorem c8_readonly_enforcement_iff (ctx : Ctx) (env : RoEnfEnv) :
    ∃ r : TestResult,
      test_readonly_mount_enforcement ctx env =
        ([Event.recorded r], Except.ok ()) ∧
      r.test = "readonly_mount_enforcement" ∧
      (r.passed = true ↔
        ∃ n m, env.writeOp = Except.error (Err.os n m) ∧ (n = 30 ∨ n = 13)) := by
  unfold test_readonly_mount_enforcement
  cases hw : env.writeOp with
  | ok u =>
      cases u
      refine ⟨_, rfl, rfl, ?_⟩
      simp [logResult]
  | error e =>
      cases e with
      | os n m =>
          dsimp only
          by_cases hn : n = 30 ∨ n = 13
          · rw [if_pos hn]
            refine ⟨_, rfl, rfl, ?_⟩
            simp only [logResult]
            exact ⟨fun _ => ⟨n, m, rfl, hn⟩, fun _ => by trivial⟩
          · rw [if_neg hn]
            refine ⟨_, rfl, rfl, ?_⟩
            simp only [logResult]
            constructor
            · intro hfalse
              cases hfalse
            · rintro ⟨n2, m2, heq, hn2⟩
              rw [Except.error.injEq, Err.os.injEq] at heq
              obtain ⟨rfl, rfl⟩ := heq
              exact absurd hn2 hn
      | generic m =>
          refine ⟨_, rfl, rfl, ?_⟩
          simp [logResult]

/-- C8, witnessed at the concrete read-only environment whose write is
rejected with errno 30. -/
theorem c8_readonly_enforcement_witness :
    ∃ r : TestResult,
      test_readonly_mount_enforcement ctxRo goodRoEnf =
        ([Event.recorded r], Except.ok ()) ∧
      r.test = "readonly_mount_enforcement" ∧
      (r.passed = true ↔
        ∃ n m, goodRoEnf.writeOp = Except.error (Err.os n m) ∧
          (n = 30 ∨ n = 13)) :=
  c8_readonly_enforcement_iff ctxRo goodRoEnf

/-- C10: the mount-options verification probe records exactly one
result, and (when `/proc/mounts` is readable) that result is a pass
precisely when some line contains the mount point and the first such
line has at least four whitespace-separated fields — the requested
options of the configuration play no part in the outcome. -/
theorem c10_mount_verification_pass_iff (ctx : Ctx) (env : ProcMountsEnv)
    (s : String) (h : env.procMounts = Except.ok s) :
    ∃ r : TestResult,
      test_mount_options_verification ctx env =
        ([Event.recorded r], Except.ok ()) ∧
      r.test = "mount_options_verification" ∧
      (r.passed = true ↔
        ∃ line, firstMountLine ctx.mountPoint s = some line ∧
          4 ≤ (pyFields line).length) := by
  unfold test_mount_options_verification
  rw [h]
  dsimp only
  cases hfm : firstMountLine ctx.mountPoint s with
  | none =>
      refine ⟨_, rfl, rfl, ?_⟩
      simp [logResult]
  | some line =>
      dsimp only
      by_cases h4 : 4 ≤ (pyFields line).length
      · rw [if_pos h4]
        refine ⟨_, rfl, rfl, ?_⟩
        simp only [logResult]
        exact ⟨fun _ => ⟨line, rfl, h4⟩, fun _ => by trivial⟩
      · rw [if_neg h4]
        refine ⟨_, rfl, rfl, ?_⟩
        simp only [logResult]
        constructor
        · intro hfalse
          cases hfalse
        · rintro ⟨line2, heq, h42⟩
          rw [Option.some.injEq] at heq
          subst heq
          exact absurd h42 h4

/-- The concrete `/proc/mounts` content used to witness C10. -/
theorem c10_mount_verification_witness :
    ∃ r : TestResult,
      test_mount_options_verification ctxA goodProcMounts =
        ([Event.recorded r], Except.ok ()) ∧
      r.test = "mount_options_verification" ∧
      (r.passed = true ↔
        ∃ line, firstMountLine ctxA.mountPoint
            "server:/export /tmp/nfs3_test_a nfs rw,proto=tcp,vers=3 0 0" =
              some line ∧
          4 ≤ (pyFields line).length) :=
  c10_mount_verification_pass_iff ctxA goodProcMounts
    "server:/export /tmp/nfs3_test_a nfs rw,proto=tcp,vers=3 0 0" rfl

theorem commaJoin_append_one (l : List String) (x : String) (h : l ≠ []) :
    commaJoin (l ++ [x]) = commaJoin l ++ "," ++ x := by
  induction l with
  | nil => exact absurd rfl h
  | cons a t ih =>
      cases t with
      | nil => simp [commaJoin]
      | cons b t2 =>
          have h2 := ih (by simp)
          simp only [List.cons_append] at h2 ⊢
          show a ++ "," ++ commaJoin (b :: (t2 ++ [x])) =
            (a ++ "," ++ commaJoin (b :: t2)) ++ "," ++ x
          rw [h2]
          simp [String.append_assoc]

set_option maxHeartbeats 2000000 in
/-- C9: the option token list always starts with `vers=3`, always carries
the proto/rsize/wsize/timeo/retrans values, carries exactly one of
`soft`/`hard`, and exactly one of the three mutually exclusive
attribute-cache groups (`noac`, `actimeo=<seconds>`, or the four
`ac*` bounds — the bounds whenever neither `noac` nor a truthy `actimeo`
is set); the string handed to the mount command is the comma-join of the
rendered tokens with the `rw`/`ro` mode token appended last. -/
theorem c9_mount_options_string (o : NFSMountOptions) (mt : String) :
    (to_mount_opts o).head? = some MountOpt.vers3 ∧
    MountOpt.proto o.transport ∈ to_mount_opts o ∧
    MountOpt.rsize o.rsize ∈ to_mount_opts o ∧
    MountOpt.wsize o.wsize ∈ to_mount_opts o ∧
    MountOpt.timeo o.timeo ∈ to_mount_opts o ∧
    MountOpt.retrans o.retrans ∈ to_mount_opts o ∧
    (to_mount_opts o).count MountOpt.soft +
      (to_mount_opts o).count MountOpt.hard = 1 ∧
    ((MountOpt.noac ∈ to_mount_opts o ∧
        (∀ n, MountOpt.actimeo n ∉ to_mount_opts o) ∧
        MountOpt.acregmin o.acregmin ∉ to_mount_opts o) ∨
     (MountOpt.noac ∉ to_mount_opts o ∧
        (∃ n, MountOpt.actimeo n ∈ to_mount_opts o) ∧
        MountOpt.acregmin o.acregmin ∉ to_mount_opts o) ∨
     (MountOpt.noac ∉ to_mount_opts o ∧
        (∀ n, MountOpt.actimeo n ∉ to_mount_opts o) ∧
        MountOpt.acregmin o.acregmin ∈ to_mount_opts o)) ∧
    ((o.noac = false ∧ optTruthy o.actimeo = false) →
      MountOpt.acregmin o.acregmin ∈ to_mount_opts o ∧
      MountOpt.acregmax o.acregmax ∈ to_mount_opts o ∧
      MountOpt.acdirmin o.acdirmin ∈ to_mount_opts o ∧
      MountOpt.acdirmax o.acdirmax ∈ to_mount_opts o) ∧
    mount_options_arg o mt =
      commaJoin (((to_mount_opts o).map MountOpt.render) ++ [mt]) := by
  have hne : (to_mount_opts o).map MountOpt.render ≠ [] := by
    simp [to_mount_opts]
  have hjoin : mount_options_arg o mt =
      commaJoin (((to_mount_opts o).map MountOpt.render) ++ [mt]) := by
    rw [commaJoin_append_one _ _ hne]
    rfl
  have hmain :
      (to_mount_opts o).head? = some MountOpt.vers3 ∧
      MountOpt.proto o.transport ∈ to_mount_opts o ∧
      MountOpt.rsize o.rsize ∈ to_mount_opts o ∧
      MountOpt.wsize o.wsize ∈ to_mount_opts o ∧
      MountOpt.timeo o.timeo ∈ to_mount_opts o ∧
      MountOpt.retrans o.retrans ∈ to_mount_opts o ∧
      (to_mount_opts o).count MountOpt.soft +
        (to_mount_opts o).count MountOpt.hard = 1 ∧
      ((MountOpt.noac ∈ to_mount_opts o ∧
          (∀ n, MountOpt.actimeo n ∉ to_mount_opts o) ∧
          MountOpt.acregmin o.acregmin ∉ to_mount_opts o) ∨
       (MountOpt.noac ∉ to_mount_opts o ∧
          (∃ n, MountOpt.actimeo n ∈ to_mount_opts o) ∧
          MountOpt.acregmin o.acregmin ∉ to_mount_opts o) ∨
       (MountOpt.noac ∉ to_mount_opts o ∧
          (∀ n, MountOpt.actimeo n ∉ to_mount_opts o) ∧
          MountOpt.acregmin o.acregmin ∈ to_mount_opts o)) ∧
      ((o.noac = false ∧ optTruthy o.actimeo = false) →
        MountOpt.acregmin o.acregmin ∈ to_mount_opts o ∧
        MountOpt.acregmax o.acregmax ∈ to_mount_opts o ∧
        MountOpt.acdirmin o.acdirmin ∈ to_mount_opts o ∧
        MountOpt.acdirmax o.acdirmax ∈ to_mount_opts o) := by
    clear hne hjoin
    obtain ⟨t, rs1, ws1, ti1, re1, sf, it, na, am, q1, q2, q3, q4, nsc, nrd⟩ := o
    cases sf <;> cases it <;> cases na <;> cases nsc <;> cases nrd <;>
      cases ham : optTruthy am <;>
      simp [to_mount_opts, ham, List.count_append, List.count_cons,
        List.count_nil, beq_iff_eq]
  exact ⟨hmain.1, hmain.2.1, hmain.2.2.1, hmain.2.2.2.1, hmain.2.2.2.2.1,
    hmain.2.2.2.2.2.1, hmain.2.2.2.2.2.2.1, hmain.2.2.2.2.2.2.2.1,
    hmain.2.2.2.2.2.2.2.2, hjoin⟩

/-- C9, witnessed at the options `run_basic_tests` actually builds
(`NFSMountOptions(transport='tcp')`) with the `rw` mode token. -/
theorem c9_mount_options_witness :
    (to_mount_opts defaultTcpOptions).head? = some MountOpt.vers3 ∧
    MountOpt.proto defaultTcpOptions.transport ∈ to_mount_opts defaultTcpOptions ∧
    MountOpt.rsize defaultTcpOptions.rsize ∈ to_mount_opts defaultTcpOptions ∧
    MountOpt.wsize defaultTcpOptions.wsize ∈ to_mount_opts defaultTcpOptions ∧
    MountOpt.timeo defaultTcpOptions.timeo ∈ to_mount_opts defaultTcpOptions ∧
    MountOpt.retrans defaultTcpOptions.retrans ∈ to_mount_opts defaultTcpOptions ∧
    (to_mount_opts defaultTcpOptions).count MountOpt.soft +
      (to_mount_opts defaultTcpOptions).count MountOpt.hard = 1 ∧
    ((MountOpt.noac ∈ to_mount_opts defaultTcpOptions ∧
        (∀ n, MountOpt.actimeo n ∉ to_mount_opts defaultTcpOptions) ∧
        MountOpt.acregmin defaultTcpOptions.acregmin ∉
          to_mount_opts defaultTcpOptions) ∨
     (MountOpt.noac ∉ to_mount_opts defaultTcpOptions ∧
        (∃ n, MountOpt.actimeo n ∈ to_mount_opts defaultTcpOptions) ∧
        MountOpt.acregmin defaultTcpOptions.acregmin ∉
          to_mount_opts defaultTcpOptions) ∨
     (MountOpt.noac ∉ to_mount_opts defaultTcpOptions ∧
        (∀ n, MountOpt.actimeo n ∉ to_mount_opts defaultTcpOptions) ∧
        MountOpt.acregmin defaultTcpOptions.acregmin ∈
          to_mount_opts defaultTcpOptions)) ∧
    ((defaultTcpOptions.noac = false ∧
        optTruthy defaultTcpOptions.actimeo = false) →
      MountOpt.acregmin defaultTcpOptions.acregmin ∈
        to_mount_opts defaultTcpOptions ∧
      MountOpt.acregmax defaultTcpOptions.acregmax ∈
        to_mount_opts defaultTcpOptions ∧
      MountOpt.acdirmin defaultTcpOptions.acdirmin ∈
        to_mount_opts defaultTcpOptions ∧
      MountOpt.acdirmax defaultTcpOptions.acdirmax ∈
        to_mount_opts defaultTcpOptions) ∧
    mount_options_arg defaultTcpOptions "rw" =
      commaJoin (((to_mount_opts defaultTcpOptions).map MountOpt.render) ++
        ["rw"]) :=
  c9_mount_options_string defaultTcpOptions "rw"

end NFS3V2
